import Mathlib

/-!
Shallow embedding of the agent-swarm scheduling core of this repository
(src/agent.py, src/swarm.py, src/orchestrator.py) and proofs about it.

Conventions of the embedding:
* Python string task ids (uuid4) are modelled as natural numbers drawn from a
  fresh-id supply that the caller threads in; distinctness of uuids becomes
  distinctness of the supplied numbers.
* datetime timestamps are modelled as natural numbers (seconds); datetime
  subtraction `now - then > timedelta(seconds=k)` is modelled by truncated
  natural subtraction, which agrees with the Python comparison in both the
  `then <= now` case and the (vacuous) `then > now` case.
* float durations and progress values are modelled as rationals, so the
  running-average division of `execute_task` is exact.
* `Task.parameters` (an opaque string-keyed map that only task bodies read)
  and `Task.created_at` are not consulted by any scheduling code under proof
  and are omitted from the model; so are the logging calls and the agent
  knowledge base written only by the optional ZAI reasoning hooks (those hooks
  catch their own exceptions and touch neither task nor agent status).
* Python dicts keyed by id are modelled as association lists in insertion
  order, matching the iteration order the source relies on.
-/

namespace Swarm

/-- Substring test on character lists: Python `sub in hay` for strings. -/
def char_list_contains_sub : List Char → List Char → Bool
  | sub, [] => sub.isEmpty
  | sub, c :: rest => sub.isPrefixOf (c :: rest) || char_list_contains_sub sub rest

/-- Python `sub in hay` on strings. -/
def str_contains (hay sub : String) : Bool :=
  char_list_contains_sub sub.toList hay.toList

/-- Python `s.lower()`, modelled character by character (all strings the
scheduler compares are ASCII). -/
def str_lower (s : String) : String := String.mk (s.toList.map Char.toLower)

/-- Python `any(keyword in desc for keyword in keywords)`. -/
def keyword_hit (desc : String) (keywords : List String) : Bool :=
  keywords.any (fun k => str_contains desc k)

/-- Multiplicity of an element in a list (used for the leveling termination
argument). -/
def occ_count [DecidableEq α] (a : α) : List α → Nat
  | [] => 0
  | x :: xs => (if x = a then 1 else 0) + occ_count a xs

/-- Python `list.remove(a)`: drop the first occurrence of `a` (identity when
`a` is absent; the source never calls it on an absent element). -/
def remove_first [DecidableEq α] : List α → α → List α
  | [], _ => []
  | x :: xs, a => if x = a then xs else x :: remove_first xs a

/-- AgentStatus enum of src/agent.py. -/
inductive AgentStatus where
  | idle
  | busy
  | error
  | completed
  | terminated
deriving DecidableEq, Repr

/-- TaskPriority enum of src/agent.py. -/
inductive TaskPriority where
  | low
  | medium
  | high
  | critical
deriving DecidableEq, Repr

/-- Numeric value of a TaskPriority (the enum values 1..4 in the source). -/
def TaskPriority.value : TaskPriority → Nat
  | .low => 1
  | .medium => 2
  | .high => 3
  | .critical => 4

/-- Task dataclass of src/agent.py (ids as Nat, timestamps omitted,
opaque `parameters` omitted; see the header comment). -/
structure Task where
  id : Nat
  description : String := ""
  priority : TaskPriority := .medium
  dependencies : List Nat := []
  assigned_to : Option Nat := none
  status : String := "pending"
  result : Option String := none
  error : Option String := none
  progress : Rat := 0
deriving DecidableEq, Repr

/-- BaseAgent state of src/agent.py: identity, status, current task,
capability tags (the value `get_capabilities` returns for the concrete
class), heartbeat and the performance-metrics counters. -/
structure Agent where
  id : Nat
  name : String
  status : AgentStatus := .idle
  current_task : Option Task := none
  capabilities : List String
  last_heartbeat : Nat
  tasks_completed : Nat := 0
  tasks_failed : Nat := 0
  total_execution_time : Rat := 0
  average_task_time : Rat := 0
deriving DecidableEq, Repr

/-- BaseAgent.assign_task: returns False and changes nothing unless the agent
is idle; otherwise stores the task, becomes busy, and marks the task
in_progress and assigned to this agent (the stored current_task is the same
mutated object as the returned task). -/
def assign_task (a : Agent) (t : Task) : Bool × Agent × Task :=
  if a.status ≠ AgentStatus.idle then
    (false, a, t)
  else
    let t' := { t with assigned_to := some a.id, status := "in_progress" }
    (true, { a with current_task := some t', status := AgentStatus.busy }, t')

/-- Outcome of the abstract task body `process_task` (an external
collaborator): it either returns a result or raises. -/
inductive ExecOutcome where
  | success (result : String)
  | failure (err : String)
deriving DecidableEq, Repr

/-- BaseAgent.execute_task. `exec_time` is the measured wall-clock duration of
the body. Success returns the result together with the updated agent and the
updated current task; a raised exception propagates as `Except.error` carrying
the message, the updated agent and (when a task was assigned) the failed task.
The no-task ValueError branch carries no task. -/
def execute_task (a : Agent) (outcome : ExecOutcome) (exec_time : Rat) :
    Except (String × Agent × Option Task) (String × Agent × Task) :=
  match a.current_task with
  | none => Except.error ("No task assigned", a, none)
  | some t =>
    match outcome with
    | .success r =>
      let t' := { t with result := some r, status := "completed", progress := 100 }
      let tc := a.tasks_completed + 1
      let tt := a.total_execution_time + exec_time
      let a' := { a with current_task := some t',
                         tasks_completed := tc,
                         total_execution_time := tt,
                         average_task_time := tt / (tc : Rat),
                         status := AgentStatus.completed }
      Except.ok (r, a', t')
    | .failure e =>
      let t' := { t with error := some e, status := "failed" }
      let a' := { a with current_task := some t',
                         status := AgentStatus.error,
                         tasks_failed := a.tasks_failed + 1 }
      Except.error (e, a', some t')

/-- BaseAgent.terminate. -/
def terminate (a : Agent) : Agent :=
  { a with status := AgentStatus.terminated }

/-- Capability tags of WebScraperAgent (src/web_scraper.py). -/
def web_scraper_capabilities : List String :=
  ["web_scraping", "data_extraction", "content_fetching"]

/-- Capability tags of ResearchAgent (src/researcher.py). -/
def researcher_capabilities : List String :=
  ["research", "information_synthesis", "data_analysis", "search"]

/-- Capability tags of CodeExecutorAgent (src/coder.py). -/
def coder_capabilities : List String :=
  ["code_execution", "script_running", "code_generation", "file_operations"]

/-- Capability tags of TaskOrchestratorAgent (src/orchestrator.py). -/
def orchestrator_capabilities : List String :=
  ["task_decomposition", "workflow_orchestration", "agent_coordination",
   "dependency_management", "task_prioritization", "resource_allocation",
   "progress_monitoring"]

/-- Capability tags of DataAnalyzerAgent (src/analyzer.py). -/
def analyzer_capabilities : List String :=
  ["data_analysis", "statistical_analysis", "data_visualization",
   "pattern_recognition", "data_cleaning", "metrics_calculation",
   "trend_analysis"]

/-- Capability tags of ContentGeneratorAgent (src/content_generator.py). -/
def content_generator_capabilities : List String :=
  ["content_generation", "text_writing", "article_creation", "summary_writing",
   "creative_writing", "technical_writing", "content_planning"]

/-- Capability tags of SearchAgent (src/searcher.py). -/
def searcher_capabilities : List String :=
  ["web_search", "information_retrieval", "source_validation", "result_ranking",
   "query_optimization", "deep_search", "fact_finding"]

/-- Construction of a fresh agent: uuid modelled by `fresh`, heartbeat stamped
with the creation time, metrics zeroed (BaseAgent.__init__). -/
def mk_agent (fresh now : Nat) (agent_name : String) (caps : List String) : Agent :=
  { id := fresh, name := agent_name, status := AgentStatus.idle,
    current_task := none, capabilities := caps, last_heartbeat := now,
    tasks_completed := 0, tasks_failed := 0, total_execution_time := 0,
    average_task_time := 0 }

/-- AgentFactory.create_generic_agent: defaults to a ResearchAgent. -/
def create_generic_agent (fresh now : Nat) : Agent :=
  mk_agent fresh now "ResearchAgent" researcher_capabilities

/-- AgentFactory.create_agent_for_task: keyword dispatch over the lowered task
description selecting the concrete agent class. -/
def create_agent_for_task (fresh now : Nat) (t : Task) : Agent :=
  let task_desc := str_lower t.description
  if keyword_hit task_desc ["scrape", "crawl", "extract", "fetch"] then
    mk_agent fresh now "WebScraperAgent" web_scraper_capabilities
  else if keyword_hit task_desc ["research", "analyze", "investigate"] then
    mk_agent fresh now "ResearchAgent" researcher_capabilities
  else if keyword_hit task_desc ["code", "program", "script", "develop"] then
    mk_agent fresh now "CodeExecutorAgent" coder_capabilities
  else if keyword_hit task_desc ["coordinate", "organize", "manage"] then
    mk_agent fresh now "TaskOrchestratorAgent" orchestrator_capabilities
  else if keyword_hit task_desc ["data", "statistics", "metrics"] then
    mk_agent fresh now "DataAnalyzerAgent" analyzer_capabilities
  else if keyword_hit task_desc ["write", "create", "generate"] then
    mk_agent fresh now "ContentGeneratorAgent" content_generator_capabilities
  else if keyword_hit task_desc ["search", "find", "lookup"] then
    mk_agent fresh now "SearchAgent" searcher_capabilities
  else
    create_generic_agent fresh now

/-- SwarmCoordinator state (src/swarm.py): agent pool in insertion order, FIFO
task queue (head is the front), completed and active task records, and the
configuration constants set in __init__ (max_agents comes from settings). -/
structure SwarmCoordinator where
  agents : List Agent := []
  task_queue : List Task := []
  completed_tasks : List (Nat × Task) := []
  active_tasks : List (Nat × Task) := []
  max_agents : Nat := 100
  scaling_threshold : Nat := 5
  idle_timeout : Nat := 300
deriving DecidableEq, Repr

/-- Python dict assignment `m[k] = v` on an insertion-ordered dict. -/
def insert_assoc (m : List (Nat × Task)) (k : Nat) (v : Task) : List (Nat × Task) :=
  if m.any (fun p => p.1 == k) then
    m.map (fun p => if p.1 = k then (k, v) else p)
  else
    m ++ [(k, v)]

/-- Python `m.pop(k, None)` / `del m[k]` on an insertion-ordered dict. -/
def remove_assoc (m : List (Nat × Task)) (k : Nat) : List (Nat × Task) :=
  m.filter (fun p => !(p.1 == k))

/-- Replacement of the pool entry whose id matches the (in-place mutated)
agent: Python mutates the object held in self.agents. -/
def update_agent (agents : List Agent) (a : Agent) : List Agent :=
  agents.map (fun x => if x.id = a.id then a else x)

/-- SwarmCoordinator.submit_task: enqueue and record as active. -/
def submit_task (c : SwarmCoordinator) (t : Task) : SwarmCoordinator :=
  { c with task_queue := c.task_queue ++ [t],
           active_tasks := insert_assoc c.active_tasks t.id t }

/-- SwarmCoordinator._agent_can_handle_task: some declared capability tag,
lowered, occurs as a substring of the lowered task description. -/
def agent_can_handle_task (a : Agent) (t : Task) : Bool :=
  let task_desc := str_lower t.description
  a.capabilities.any (fun capability => str_contains task_desc (str_lower capability))

/-- SwarmCoordinator._get_suitable_agent: first idle agent (pool iteration
order) that can handle the task; otherwise, when the pool is strictly below
max_agents, create an agent for the task and add it to the pool. Returns the
chosen agent and the possibly-grown coordinator. -/
def get_suitable_agent (c : SwarmCoordinator) (t : Task) (fresh now : Nat) :
    Option (Agent × SwarmCoordinator) :=
  match c.agents.find? (fun a => a.status == AgentStatus.idle && agent_can_handle_task a t) with
  | some a => some (a, c)
  | none =>
    if c.agents.length < c.max_agents then
      let a := create_agent_for_task fresh now t
      some (a, { c with agents := c.agents ++ [a] })
    else
      none

/-- One iteration of SwarmCoordinator._process_task_queue with a task
available: pop the front task, look for a suitable agent; on a hit, assign the
task (the asynchronous execution is a separate later event, see
`execute_agent_task`) and report the assigned pair; on a miss, requeue the
task at the tail. -/
def process_task_queue_step (c : SwarmCoordinator) (fresh now : Nat) :
    SwarmCoordinator × Option (Agent × Task) :=
  match c.task_queue with
  | [] => (c, none)
  | t :: rest =>
    let c1 : SwarmCoordinator := { c with task_queue := rest }
    match get_suitable_agent c1 t fresh now with
    | some (a, c2) =>
      let r := assign_task a t
      ({ c2 with agents := update_agent c2.agents r.2.1 }, some (r.2.1, r.2.2))
    | none =>
      ({ c1 with task_queue := rest ++ [t] }, none)

/-- SwarmCoordinator._execute_agent_task: run the agent's execute_task; on
either outcome move the (updated) task from active to completed records and
store the mutated agent back. The no-current-task ValueError branch still
records the passed task with the error string set. -/
def execute_agent_task (c : SwarmCoordinator) (a : Agent) (t : Task)
    (outcome : ExecOutcome) (exec_time : Rat) : SwarmCoordinator :=
  match execute_task a outcome exec_time with
  | Except.ok (r, a', t') =>
    let done := { t' with result := some r }
    { c with agents := update_agent c.agents a',
             completed_tasks := insert_assoc c.completed_tasks done.id done,
             active_tasks := remove_assoc c.active_tasks done.id }
  | Except.error (e, a', ot) =>
    let done := match ot with
      | some t' => { t' with error := some e }
      | none => { t with error := some e }
    { c with agents := update_agent c.agents a',
             completed_tasks := insert_assoc c.completed_tasks done.id done,
             active_tasks := remove_assoc c.active_tasks done.id }

/-- One sweep of SwarmCoordinator._monitor_agents at time `now`: terminate and
drop every agent that is idle and whose heartbeat is older than idle_timeout
(the collect-then-delete phases of the source coincide with one filter, since
the test reads no state the deletions change). -/
def monitor_agents_step (c : SwarmCoordinator) (now : Nat) : SwarmCoordinator :=
  { c with agents :=
      c.agents.filter (fun a =>
        !(a.status == AgentStatus.idle &&
          decide (now - a.last_heartbeat > c.idle_timeout))) }

/-- One sweep of SwarmCoordinator._auto_scale: when the queue length exceeds
the scaling threshold and the pool is below max_agents, add
min(queue - threshold, max_agents - pool) generic agents (fresh ids
fresh, fresh+1, ...). -/
def auto_scale_step (c : SwarmCoordinator) (fresh now : Nat) : SwarmCoordinator :=
  let queue_size := c.task_queue.length
  if queue_size > c.scaling_threshold && c.agents.length < c.max_agents then
    let num_to_create := min (queue_size - c.scaling_threshold)
                             (c.max_agents - c.agents.length)
    { c with agents :=
        c.agents ++ (List.range num_to_create).map (fun i => create_generic_agent (fresh + i) now) }
  else
    c

/-- SwarmCoordinator.__init__ followed by start(): empty pool, empty queue,
settings.max_agents = 100, scaling_threshold = 5, idle_timeout = 300. -/
def init_coordinator : SwarmCoordinator := {}

/-- One interleaving event of the started coordinator: a submission, one
dispatch-loop iteration, one in-flight execution finishing, one monitor sweep
or one auto-scale sweep (the cooperative-concurrency model of the source). -/
inductive SwarmStep : SwarmCoordinator → SwarmCoordinator → Prop where
  | submit (c : SwarmCoordinator) (t : Task) : SwarmStep c (submit_task c t)
  | dispatch (c : SwarmCoordinator) (fresh now : Nat) :
      SwarmStep c (process_task_queue_step c fresh now).1
  | exec_done (c : SwarmCoordinator) (a : Agent) (t : Task) (o : ExecOutcome) (dt : Rat) :
      SwarmStep c (execute_agent_task c a t o dt)
  | monitor (c : SwarmCoordinator) (now : Nat) : SwarmStep c (monitor_agents_step c now)
  | autoscale (c : SwarmCoordinator) (fresh now : Nat) :
      SwarmStep c (auto_scale_step c fresh now)

/-- States the started coordinator can reach from its initial state. -/
def Reachable (c : SwarmCoordinator) : Prop :=
  Relation.ReflTransGen SwarmStep init_coordinator c

/-- TaskOrchestratorAgent._decompose_research_task: search → analyze →
summarize chain; `base`, `base+1`, `base+2` stand for the three fresh uuids. -/
def decompose_research_task (base : Nat) (t : Task) : List Task :=
  let search_task : Task :=
    { id := base, description := "Search for information: " ++ t.description,
      priority := TaskPriority.high }
  let analysis_task : Task :=
    { id := base + 1,
      description := "Analyze research findings for: " ++ t.description,
      priority := TaskPriority.medium, dependencies := [search_task.id] }
  let summary_task : Task :=
    { id := base + 2, description := "Summarize research on: " ++ t.description,
      priority := TaskPriority.medium, dependencies := [analysis_task.id] }
  [search_task, analysis_task, summary_task]

/-- TaskOrchestratorAgent._decompose_development_task: requirements → design →
implement → test chain. -/
def decompose_development_task (base : Nat) (t : Task) : List Task :=
  let requirements_task : Task :=
    { id := base, description := "Analyze requirements for: " ++ t.description,
      priority := TaskPriority.high }
  let design_task : Task :=
    { id := base + 1, description := "Design solution for: " ++ t.description,
      priority := TaskPriority.high, dependencies := [requirements_task.id] }
  let impl_task : Task :=
    { id := base + 2, description := "Implement: " ++ t.description,
      priority := TaskPriority.high, dependencies := [design_task.id] }
  let test_task : Task :=
    { id := base + 3, description := "Test implementation of: " ++ t.description,
      priority := TaskPriority.medium, dependencies := [impl_task.id] }
  [requirements_task, design_task, impl_task, test_task]

/-- TaskOrchestratorAgent._decompose_scraping_task: targets → scrape → process
chain. -/
def decompose_scraping_task (base : Nat) (t : Task) : List Task :=
  let target_task : Task :=
    { id := base,
      description := "Identify scraping targets for: " ++ t.description,
      priority := TaskPriority.high }
  let scrape_task : Task :=
    { id := base + 1, description := "Scrape data for: " ++ t.description,
      priority := TaskPriority.high, dependencies := [target_task.id] }
  let process_task : Task :=
    { id := base + 2, description := "Process scraped data for: " ++ t.description,
      priority := TaskPriority.medium, dependencies := [scrape_task.id] }
  [target_task, scrape_task, process_task]

/-- TaskOrchestratorAgent._decompose_content_task: research → generate →
review chain. -/
def decompose_content_task (base : Nat) (t : Task) : List Task :=
  let research_task : Task :=
    { id := base, description := "Research content for: " ++ t.description,
      priority := TaskPriority.high }
  let generate_task : Task :=
    { id := base + 1, description := "Generate content: " ++ t.description,
      priority := TaskPriority.high, dependencies := [research_task.id] }
  let review_task : Task :=
    { id := base + 2,
      description := "Review and refine content: " ++ t.description,
      priority := TaskPriority.medium, dependencies := [generate_task.id] }
  [research_task, generate_task, review_task]

/-- TaskOrchestratorAgent._decompose_generic_task: analyze → execute →
validate chain. -/
def decompose_generic_task (base : Nat) (t : Task) : List Task :=
  let analysis_task : Task :=
    { id := base, description := "Analyze task: " ++ t.description,
      priority := TaskPriority.high }
  let execute_stage : Task :=
    { id := base + 1, description := "Execute task: " ++ t.description,
      priority := TaskPriority.high, dependencies := [analysis_task.id] }
  let validate_task : Task :=
    { id := base + 2, description := "Validate results: " ++ t.description,
      priority := TaskPriority.medium, dependencies := [execute_stage.id] }
  [analysis_task, execute_stage, validate_task]

/-- TaskOrchestratorAgent.decompose_task: keyword dispatch over the lowered
description to a template, then truncation to the first max_subtasks. -/
def decompose_task (base : Nat) (t : Task) (max_subtasks : Nat) : List Task :=
  let description := str_lower t.description
  let subtasks :=
    if keyword_hit description ["research", "analyze", "investigate"] then
      decompose_research_task base t
    else if keyword_hit description ["build", "create", "develop", "code"] then
      decompose_development_task base t
    else if keyword_hit description ["scrape", "extract", "collect"] then
      decompose_scraping_task base t
    else if keyword_hit description ["write", "generate", "content"] then
      decompose_content_task base t
    else
      decompose_generic_task base t
  subtasks.take max_subtasks

/-- Position-based adjustment inside TaskOrchestratorAgent.assign_priorities:
only a task still at the default MEDIUM is touched; the first third of the
workflow order is promoted to HIGH, the last third demoted to LOW. -/
def adjust_priority (n i : Nat) (t : Task) : Task :=
  if t.priority = TaskPriority.medium then
    if i < n / 3 then { t with priority := TaskPriority.high }
    else if i > 2 * n / 3 then { t with priority := TaskPriority.low }
    else t
  else t

/-- Sort key order of assign_priorities: ascending in
(-priority.value, len(dependencies)), i.e. priority descending then
dependency count ascending. -/
def priority_key_le (a b : Task) : Bool :=
  decide (b.priority.value < a.priority.value) ||
    (decide (a.priority.value = b.priority.value) &&
     decide (a.dependencies.length ≤ b.dependencies.length))

/-- TaskOrchestratorAgent.assign_priorities: adjust defaulted priorities by
position, then stable-sort by the key above (Python's sorted is stable, as is
List.mergeSort). -/
def assign_priorities (workflow : List Task) : List Task :=
  let n := workflow.length
  let adjusted := workflow.enum.map (fun p => adjust_priority n p.1 p.2)
  adjusted.mergeSort priority_key_le

/-- One pass of the level-grouping scan in generate_execution_plan. The first
argument is the snapshot `remaining[:]` being iterated, the second the live
`remaining` list the loop mutates: a task whose dependencies all miss the ids
of the CURRENT live remaining list is extracted and removed at once, so later
snapshot entries already see the shrunken list (this mid-scan mutation is
exactly what the source does). Returns (extracted level, new remaining). -/
def level_pass : List Task → List Task → List Task × List Task
  | [], remaining => ([], remaining)
  | t :: rest, remaining =>
    if t.dependencies.all (fun dep => !((remaining.map Task.id).contains dep)) then
      let res := level_pass rest (remove_first remaining t)
      (t :: res.1, res.2)
    else
      level_pass rest remaining

theorem length_remove_first_le [DecidableEq α] (l : List α) (a : α) :
    (remove_first l a).length ≤ l.length := by
  induction l with
  | nil => simp [remove_first]
  | cons x xs ih =>
    by_cases h : x = a <;> simp [remove_first, h] <;> omega

theorem occ_count_remove_first_self [DecidableEq α] (l : List α) (a : α) :
    occ_count a (remove_first l a) = occ_count a l - 1 := by
  induction l with
  | nil => simp [remove_first, occ_count]
  | cons x xs ih =>
    by_cases h : x = a <;> simp [remove_first, occ_count, h, ih]

theorem occ_count_remove_first_ne [DecidableEq α] (l : List α) (a b : α)
    (hne : b ≠ a) : occ_count b (remove_first l a) = occ_count b l := by
  induction l with
  | nil => simp [remove_first]
  | cons x xs ih =>
    by_cases h : x = a
    · subst h
      simp [remove_first, occ_count, Ne.symm hne]
    · simp [remove_first, occ_count, h, ih]

theorem length_remove_first_lt [DecidableEq α] (l : List α) (a : α)
    (h : 0 < occ_count a l) : (remove_first l a).length < l.length := by
  induction l with
  | nil => simp [occ_count] at h
  | cons x xs ih =>
    by_cases hx : x = a
    · simp [remove_first, hx]
    · simp only [occ_count, if_neg hx, Nat.zero_add] at h
      simp only [remove_first, if_neg hx, List.length_cons]
      exact Nat.succ_lt_succ (ih h)

theorem level_pass_rem_length_le (snap remaining : List Task) :
    (level_pass snap remaining).2.length ≤ remaining.length := by
  induction snap generalizing remaining with
  | nil => simp [level_pass]
  | cons t rest ih =>
    by_cases h : t.dependencies.all (fun dep => !((remaining.map Task.id).contains dep))
    · simp only [level_pass, if_pos h]
      exact le_trans (ih (remove_first remaining t)) (length_remove_first_le remaining t)
    · simp only [level_pass, if_neg h]
      exact ih remaining

theorem level_pass_extract_length_lt (snap remaining : List Task)
    (hocc : ∀ x, occ_count x snap ≤ occ_count x remaining)
    (hne : (level_pass snap remaining).1 ≠ []) :
    (level_pass snap remaining).2.length < remaining.length := by
  induction snap generalizing remaining with
  | nil => simp [level_pass] at hne
  | cons t rest ih =>
    by_cases h : t.dependencies.all (fun dep => !((remaining.map Task.id).contains dep))
    · simp only [level_pass, if_pos h]
      have ht : 0 < occ_count t remaining := by
        have := hocc t
        simp [occ_count] at this
        omega
      calc (level_pass rest (remove_first remaining t)).2.length
          ≤ (remove_first remaining t).length := level_pass_rem_length_le _ _
        _ < remaining.length := length_remove_first_lt remaining t ht
    · simp only [level_pass, if_neg h] at hne ⊢
      refine ih remaining (fun x => ?_) hne
      have := hocc x
      simp [occ_count] at this
      by_cases hx : t = x <;> simp [hx] at this <;> omega

/-- The while-loop of generate_execution_plan: repeatedly extract a level; the
loop stops when remaining is empty, and when an iteration extracts nothing the
whole remaining list becomes one final level (the source's else/break arm). -/
def level_loop (remaining : List Task) : List (List Task) :=
  if remaining.isEmpty then []
  else if h : ((level_pass remaining remaining).1).isEmpty then [remaining]
  else (level_pass remaining remaining).1 :: level_loop ((level_pass remaining remaining).2)
termination_by remaining.length
decreasing_by
  refine level_pass_extract_length_lt remaining remaining (fun x => le_refl _) ?_
  simpa [List.isEmpty_iff] using h

/-- Observer of the same while-loop recording whether the zero-extraction
(cycle / orphaned-dependency) arm is ever taken. -/
def levels_degenerate (remaining : List Task) : Bool :=
  if remaining.isEmpty then false
  else if h : ((level_pass remaining remaining).1).isEmpty then true
  else levels_degenerate ((level_pass remaining remaining).2)
termination_by remaining.length
decreasing_by
  refine level_pass_extract_length_lt remaining remaining (fun x => le_refl _) ?_
  simpa [List.isEmpty_iff] using h

/-- One entry of the phases list built by generate_execution_plan. -/
structure ExecutionPhase where
  phase : Nat
  tasks : List String
  can_run_parallel : Bool
deriving DecidableEq, Repr

/-- The plan dict returned by generate_execution_plan; its four keys are fixed
by the dict literal at the top of the function and never extended. -/
structure ExecutionPlan where
  total_tasks : Nat
  phases : List ExecutionPhase
  parallel_tasks : List String
  critical_path : List String
deriving DecidableEq, Repr

/-- The exact key set of the dict generate_execution_plan builds and returns. -/
def execution_plan_keys : List String :=
  ["total_tasks", "phases", "parallel_tasks", "critical_path"]

/-- TaskOrchestratorAgent.generate_execution_plan: group tasks into dependency
levels and render the plan record. -/
def generate_execution_plan (tasks : List Task) : ExecutionPlan :=
  let levels := level_loop tasks
  { total_tasks := tasks.length,
    phases := levels.enum.map (fun p =>
      { phase := p.1 + 1,
        tasks := p.2.map Task.description,
        can_run_parallel := decide (p.2.length > 1) }),
    parallel_tasks := [],
    critical_path := [] }

/-- Statement of the forward-chain shape of decompositions: every dependency
id is the id of a strictly earlier task of the list (the accumulator carries
the ids already passed). -/
def deps_resolved_earlier : List Nat → List Task → Bool
  | _, [] => true
  | seen, t :: rest =>
    t.dependencies.all (fun d => seen.contains d) &&
      deps_resolved_earlier (seen ++ [t.id]) rest

/-- Weaker consequence used for leveling: no task depends on itself or on any
task at its position or later. -/
def no_forward_dep : List Task → Bool
  | [] => true
  | t :: rest =>
    t.dependencies.all (fun d => (d != t.id) && !((rest.map Task.id).contains d)) &&
      no_forward_dep rest

/-! Concrete states used to instantiate the theorems below. -/

/-- A pending task used as an unmet dependency. -/
def dep_task_pending : Task := { id := 9, description := "prerequisite work", status := "pending" }

/-- The same dependency task already failed. -/
def dep_task_failed : Task := { id := 9, description := "prerequisite work", status := "failed" }

/-- A task that depends on task 9 and whose description matches the research
capability tag. -/
def main_task : Task := { id := 2, description := "research topic x", dependencies := [9] }

/-- An idle research agent present in the pool. -/
def idle_research_agent : Agent := mk_agent 1 0 "ResearchAgent" researcher_capabilities

/-- Coordinator about to dispatch `main_task` while its dependency is still
pending. -/
def pending_dep_state : SwarmCoordinator :=
  { agents := [idle_research_agent], task_queue := [main_task],
    active_tasks := [(9, dep_task_pending), (2, main_task)] }

/-- Coordinator about to dispatch `main_task` after its dependency failed. -/
def failed_dep_state : SwarmCoordinator :=
  { agents := [idle_research_agent], task_queue := [main_task],
    active_tasks := [(9, dep_task_failed), (2, main_task)] }

/-- A dispatched task held by `busy_agent`. -/
def dispatched_task : Task :=
  { id := 3, description := "research topic y", status := "in_progress", assigned_to := some 1 }

/-- The agent executing `dispatched_task`. -/
def busy_agent : Agent :=
  { mk_agent 1 0 "ResearchAgent" researcher_capabilities with
      status := AgentStatus.busy, current_task := some dispatched_task }

/-- Coordinator while `dispatched_task` is in flight. -/
def in_flight_state : SwarmCoordinator :=
  { agents := [busy_agent], active_tasks := [(3, dispatched_task)] }

/-- A chain pair listed in dependency order: `chain_b` depends on `chain_a`. -/
def chain_a : Task := { id := 10, description := "stage one" }

/-- Second element of the chain pair, depending on `chain_a`. -/
def chain_b : Task := { id := 11, description := "stage two", dependencies := [10] }

/-- A two-cycle: `cyc_a` depends on `cyc_b` and vice versa. -/
def cyc_a : Task := { id := 20, description := "loop left", dependencies := [21] }

/-- Other half of the two-cycle. -/
def cyc_b : Task := { id := 21, description := "loop right", dependencies := [20] }

/-- A stale idle agent in the pool at sweep time 1000. -/
def stale_idle_agent : Agent := mk_agent 5 0 "ResearchAgent" researcher_capabilities

/-- A busy agent with an equally stale heartbeat. -/
def stale_busy_agent : Agent :=
  { mk_agent 6 0 "ResearchAgent" researcher_capabilities with status := AgentStatus.busy }

/-- Pool holding both stale agents. -/
def stale_pool_state : SwarmCoordinator :=
  { agents := [stale_idle_agent, stale_busy_agent] }

/-- Seven queued tasks and an empty pool, exceeding the scaling threshold. -/
def backlog_state : SwarmCoordinator :=
  { task_queue := (List.range 7).map (fun i => { id := 30 + i : Task }) }

end Swarm

namespace Swarm

/-- C3: assign_task returns true exactly when the agent is idle; on success it
makes the agent busy holding the now in_progress task assigned to it, and when
the agent is not idle it returns false and leaves both the agent and the task
exactly as they were. -/
theorem assign_task_spec (a : Agent) (t : Task) :
    ((assign_task a t).1 = true ↔ a.status = AgentStatus.idle) ∧
    (a.status = AgentStatus.idle →
      assign_task a t =
        (true,
         { a with status := AgentStatus.busy,
                  current_task :=
                    some { t with assigned_to := some a.id, status := "in_progress" } },
         { t with assigned_to := some a.id, status := "in_progress" })) ∧
    (a.status ≠ AgentStatus.idle → assign_task a t = (false, a, t)) := by
  by_cases h : a.status = AgentStatus.idle <;> simp [assign_task, h]

/-- C4: with a task assigned, execute_task on success records result, status
completed and progress 100 on the task, marks the agent completed, bumps
tasks_completed, accumulates the duration and recomputes the running average
as total time over completed count; on failure it records the error and the
failed status, marks the agent error, bumps tasks_failed, and re-raises the
failure (the Except.error reaches the caller). -/
theorem execute_task_spec (a : Agent) (t : Task) (outcome : ExecOutcome)
    (exec_time : Rat) (h : a.current_task = some t) :
    (∀ r, outcome = ExecOutcome.success r →
      execute_task a outcome exec_time =
        Except.ok (r,
          { a with current_task :=
                     some { t with result := some r, status := "completed", progress := 100 },
                   tasks_completed := a.tasks_completed + 1,
                   total_execution_time := a.total_execution_time + exec_time,
                   average_task_time :=
                     (a.total_execution_time + exec_time) / ((a.tasks_completed + 1 : Nat) : Rat),
                   status := AgentStatus.completed },
          { t with result := some r, status := "completed", progress := 100 })) ∧
    (∀ e, outcome = ExecOutcome.failure e →
      execute_task a outcome exec_time =
        Except.error (e,
          { a with current_task := some { t with error := some e, status := "failed" },
                   status := AgentStatus.error,
                   tasks_failed := a.tasks_failed + 1 },
          some { t with error := some e, status := "failed" })) := by
  constructor <;> intro x hx <;> subst hx <;> simp [execute_task, h]

/-- Instantiation of execute_task_spec at the in-flight agent, both outcomes. -/
theorem execute_task_spec_witness :
    execute_task busy_agent (ExecOutcome.success "done") 2 =
      Except.ok ("done",
        { busy_agent with
            current_task :=
              some { dispatched_task with
                       result := some "done", status := "completed", progress := 100 },
            tasks_completed := busy_agent.tasks_completed + 1,
            total_execution_time := busy_agent.total_execution_time + 2,
            average_task_time :=
              (busy_agent.total_execution_time + 2) / ((busy_agent.tasks_completed + 1 : Nat) : Rat),
            status := AgentStatus.completed },
        { dispatched_task with result := some "done", status := "completed", progress := 100 }) ∧
    execute_task busy_agent (ExecOutcome.failure "boom") 2 =
      Except.error ("boom",
        { busy_agent with
            current_task := some { dispatched_task with error := some "boom", status := "failed" },
            status := AgentStatus.error,
            tasks_failed := busy_agent.tasks_failed + 1 },
        some { dispatched_task with error := some "boom", status := "failed" }) := by
  constructor
  · exact (execute_task_spec busy_agent dispatched_task (ExecOutcome.success "done") 2 rfl).1
      "done" rfl
  · exact (execute_task_spec busy_agent dispatched_task (ExecOutcome.failure "boom") 2 rfl).2
      "boom" rfl

/-- C9: a pool member survives the monitoring sweep at time `now` exactly when
it is not an idle agent whose heartbeat is older than idle_timeout; in
particular a busy agent survives no matter how old its heartbeat is. -/
theorem monitor_agents_spec (c : SwarmCoordinator) (now : Nat) (a : Agent)
    (ha : a ∈ c.agents) :
    (a ∈ (monitor_agents_step c now).agents ↔
      ¬(a.status = AgentStatus.idle ∧ now - a.last_heartbeat > c.idle_timeout)) ∧
    (a.status = AgentStatus.busy → a ∈ (monitor_agents_step c now).agents) := by
  have hiff : a ∈ (monitor_agents_step c now).agents ↔
      ¬(a.status = AgentStatus.idle ∧ now - a.last_heartbeat > c.idle_timeout) := by
    simp only [monitor_agents_step, List.mem_filter, ha, true_and]
    constructor
    · rintro h1 ⟨h2, h3⟩
      rw [Bool.not_eq_true', Bool.and_eq_false_iff] at h1
      rcases h1 with h1 | h1
      · rw [h2] at h1
        simp at h1
      · rw [decide_eq_false_iff_not] at h1
        exact h1 h3
    · intro h1
      rw [Bool.not_eq_true', Bool.and_eq_false_iff]
      by_cases h2 : a.status = AgentStatus.idle
      · right
        rw [decide_eq_false_iff_not]
        intro h3
        exact h1 ⟨h2, h3⟩
      · left
        exact beq_eq_false_iff_ne.mpr h2
  refine ⟨hiff, fun hb => hiff.mpr ?_⟩
  rintro ⟨h1, -⟩
  rw [hb] at h1
  cases h1

/-- Instantiation of monitor_agents_spec: the stale idle agent is removed by
the sweep, the equally stale busy agent survives. -/
theorem monitor_agents_spec_witness :
    stale_idle_agent ∉ (monitor_agents_step stale_pool_state 1000).agents ∧
    stale_busy_agent ∈ (monitor_agents_step stale_pool_state 1000).agents := by
  constructor
  · intro hmem
    exact (monitor_agents_spec stale_pool_state 1000 stale_idle_agent
      (by simp [stale_pool_state])).1.mp hmem (by decide)
  · exact (monitor_agents_spec stale_pool_state 1000 stale_busy_agent
      (by simp [stale_pool_state])).2 rfl

theorem update_agent_length (agents : List Agent) (a : Agent) :
    (update_agent agents a).length = agents.length := by
  simp [update_agent]

theorem get_suitable_agent_pool (c : SwarmCoordinator) (t : Task) (fresh now : Nat)
    (a : Agent) (c2 : SwarmCoordinator)
    (h : get_suitable_agent c t fresh now = some (a, c2)) :
    c2 = c ∨ (c.agents.length < c.max_agents ∧
      c2 = { c with agents := c.agents ++ [create_agent_for_task fresh now t] }) := by
  unfold get_suitable_agent at h
  split at h
  · left
    simp at h
    exact h.2.symm
  · split at h
    · right
      simp at h
      exact ⟨by assumption, h.2.symm⟩
    · simp at h

theorem swarm_step_pool_bound {c c' : SwarmCoordinator} (h : SwarmStep c c')
    (hb : c.agents.length ≤ c.max_agents) :
    c'.agents.length ≤ c'.max_agents := by
  cases h with
  | submit t => simpa [submit_task] using hb
  | dispatch fresh now =>
    unfold process_task_queue_step
    cases hq : c.task_queue with
    | nil => simpa using hb
    | cons t rest =>
      dsimp only
      cases hs : get_suitable_agent { c with task_queue := rest } t fresh now with
      | none => simpa using hb
      | some p =>
        obtain ⟨a, c2⟩ := p
        rcases get_suitable_agent_pool _ t fresh now a c2 hs with h1 | ⟨hlt, h1⟩
        · subst h1
          simp only [update_agent_length]
          simpa using hb
        · subst h1
          simp only [update_agent_length, List.length_append, List.length_cons,
            List.length_nil]
          simp only [SwarmCoordinator.mk.injEq] at hlt ⊢
          dsimp at hlt ⊢
          omega
  | exec_done a t o dt =>
    unfold execute_agent_task
    cases hr : execute_task a o dt with
    | ok v => obtain ⟨r, a', t'⟩ := v; simpa [update_agent_length] using hb
    | error v => obtain ⟨e, a', ot⟩ := v; simpa [update_agent_length] using hb
  | monitor now =>
    simp only [monitor_agents_step]
    exact le_trans (List.length_filter_le _ _) hb
  | autoscale fresh now =>
    simp only [auto_scale_step]
    split
    · simp only [List.length_append, List.length_map, List.length_range]
      omega
    · exact hb

/-- C5: in every state the started coordinator can reach, the pool size is at
most max_agents; the dispatch path adds no agent once the pool has reached
max_agents; and an auto-scale sweep adds exactly
min(queue - threshold, max_agents - pool) agents when the queue exceeds the
threshold and the pool is below the maximum, and none otherwise. -/
theorem pool_never_exceeds_max :
    (∀ c : SwarmCoordinator, Reachable c → c.agents.length ≤ c.max_agents) ∧
    (∀ (c : SwarmCoordinator) (fresh now : Nat), c.max_agents ≤ c.agents.length →
      (process_task_queue_step c fresh now).1.agents.length = c.agents.length) ∧
    (∀ (c : SwarmCoordinator) (fresh now : Nat),
      c.task_queue.length > c.scaling_threshold → c.agents.length < c.max_agents →
      (auto_scale_step c fresh now).agents.length =
        c.agents.length +
          min (c.task_queue.length - c.scaling_threshold) (c.max_agents - c.agents.length)) ∧
    (∀ (c : SwarmCoordinator) (fresh now : Nat),
      ¬(c.task_queue.length > c.scaling_threshold ∧ c.agents.length < c.max_agents) →
      auto_scale_step c fresh now = c) := by
  refine ⟨?_, ?_, ?_, ?_⟩
  · intro c h
    induction h with
    | refl => simp [init_coordinator]
    | tail _ hstep ih => exact swarm_step_pool_bound hstep ih
  · intro c fresh now hge
    unfold process_task_queue_step
    cases hq : c.task_queue with
    | nil => rfl
    | cons t rest =>
      dsimp only
      cases hs : get_suitable_agent { c with task_queue := rest } t fresh now with
      | none => rfl
      | some p =>
        obtain ⟨a, c2⟩ := p
        rcases get_suitable_agent_pool _ t fresh now a c2 hs with h1 | ⟨hlt, h1⟩
        · subst h1; simp [update_agent_length]
        · exact absurd hlt (by simpa using hge)
  · intro c fresh now h1 h2
    simp only [auto_scale_step]
    rw [if_pos (by simp only [Bool.and_eq_true, decide_eq_true_eq]; exact ⟨h1, h2⟩)]
    simp
  · intro c fresh now hnot
    simp only [auto_scale_step]
    rw [if_neg (by simp only [Bool.and_eq_true, decide_eq_true_eq]; exact hnot)]

/-- Instantiation of pool_never_exceeds_max: the initial state respects the
bound, and the auto-scale sweep over the backlog creates exactly
min(7 - 5, 100 - 0) = 2 agents. -/
theorem pool_never_exceeds_max_witness :
    init_coordinator.agents.length ≤ init_coordinator.max_agents ∧
    (auto_scale_step backlog_state 40 0).agents.length =
      backlog_state.agents.length +
        min (backlog_state.task_queue.length - backlog_state.scaling_threshold)
            (backlog_state.max_agents - backlog_state.agents.length) := by
  constructor
  · exact pool_never_exceeds_max.1 init_coordinator Relation.ReflTransGen.refl
  · exact pool_never_exceeds_max.2.2.1 backlog_state 40 0 (by decide) (by decide)

theorem priority_key_le_iff (a b : Task) :
    priority_key_le a b = true ↔
      (b.priority.value < a.priority.value ∨
        (a.priority.value = b.priority.value ∧
         a.dependencies.length ≤ b.dependencies.length)) := by
  simp [priority_key_le]

theorem priority_key_le_trans (a b c : Task) (h1 : priority_key_le a b = true)
    (h2 : priority_key_le b c = true) : priority_key_le a c = true := by
  rw [priority_key_le_iff] at h1 h2 ⊢
  omega

theorem priority_key_le_total (a b : Task) :
    (priority_key_le a b || priority_key_le b a) = true := by
  simp only [Bool.or_eq_true, priority_key_le_iff]
  omega

/-- C8: assign_priorities returns a permutation of the position-adjusted
workflow, sorted by priority descending with dependency count ascending as the
tie-break; the position adjustment never touches a task whose priority was
explicitly set away from the MEDIUM default, promotes a defaulted task in the
first third of the workflow order to HIGH, demotes one in the last third to
LOW, and leaves the middle third at MEDIUM. -/
theorem assign_priorities_spec (workflow : List Task) :
    ((assign_priorities workflow).Perm
      (workflow.enum.map (fun p => adjust_priority workflow.length p.1 p.2))) ∧
    ((assign_priorities workflow).Sorted (fun a b =>
      b.priority.value < a.priority.value ∨
        (a.priority.value = b.priority.value ∧
         a.dependencies.length ≤ b.dependencies.length))) ∧
    (∀ (n i : Nat) (t : Task), t.priority ≠ TaskPriority.medium →
      adjust_priority n i t = t) ∧
    (∀ (n i : Nat) (t : Task), t.priority = TaskPriority.medium → i < n / 3 →
      adjust_priority n i t = { t with priority := TaskPriority.high }) ∧
    (∀ (n i : Nat) (t : Task), t.priority = TaskPriority.medium →
      ¬ i < n / 3 → i > 2 * n / 3 →
      adjust_priority n i t = { t with priority := TaskPriority.low }) ∧
    (∀ (n i : Nat) (t : Task), t.priority = TaskPriority.medium →
      ¬ i < n / 3 → ¬ i > 2 * n / 3 → adjust_priority n i t = t) := by
  refine ⟨?_, ?_, ?_, ?_, ?_, ?_⟩
  · simpa [assign_priorities] using
      List.mergeSort_perm
        (workflow.enum.map (fun p => adjust_priority workflow.length p.1 p.2))
        priority_key_le
  · have hs := List.sorted_mergeSort priority_key_le_trans priority_key_le_total
      (workflow.enum.map (fun p => adjust_priority workflow.length p.1 p.2))
    simp only [assign_priorities]
    exact hs.imp (fun h => (priority_key_le_iff _ _).mp h)
  · intro n i t h
    simp [adjust_priority, h]
  · intro n i t h h1
    simp [adjust_priority, h, h1]
  · intro n i t h h1 h2
    simp [adjust_priority, h, h1, h2]
  · intro n i t h h1 h2
    simp [adjust_priority, h, h1, h2]

theorem deps_resolved_earlier_take (l : List Task) :
    ∀ (seen : List Nat) (n : Nat), deps_resolved_earlier seen l = true →
      deps_resolved_earlier seen (l.take n) = true := by
  induction l with
  | nil =>
    intro seen n _
    simp [List.take_nil, deps_resolved_earlier]
  | cons t rest ih =>
    intro seen n h
    cases n with
    | zero => simp [deps_resolved_earlier]
    | succ m =>
      rw [List.take_succ_cons]
      simp only [deps_resolved_earlier, Bool.and_eq_true] at h ⊢
      exact ⟨h.1, ih _ m h.2⟩

theorem contains_false_of_subset {l1 l2 : List Nat} (hsub : l1 ⊆ l2) (d : Nat)
    (h : l2.contains d = false) : l1.contains d = false := by
  rw [← Bool.not_eq_true] at h ⊢
  intro hmem
  exact h (List.elem_iff.mpr (hsub (List.elem_iff.mp hmem)))

theorem no_forward_dep_take (l : List Task) :
    ∀ n, no_forward_dep l = true → no_forward_dep (l.take n) = true := by
  induction l with
  | nil =>
    intro n _
    simp [List.take_nil, no_forward_dep]
  | cons t rest ih =>
    intro n h
    cases n with
    | zero => simp [no_forward_dep]
    | succ m =>
      rw [List.take_succ_cons]
      simp only [no_forward_dep, Bool.and_eq_true, List.all_eq_true] at h ⊢
      refine ⟨fun d hd => ?_, ih m h.2⟩
      have h1 := h.1 d hd
      refine ⟨h1.1, ?_⟩
      have h2 := h1.2
      rw [Bool.not_eq_true'] at h2 ⊢
      refine contains_false_of_subset ?_ d h2
      exact ((List.take_sublist m rest).map Task.id).subset

theorem no_forward_dep_sublist {l1 l2 : List Task} (hsub : l1.Sublist l2)
    (h : no_forward_dep l2 = true) : no_forward_dep l1 = true := by
  induction hsub with
  | slnil => rfl
  | cons a _ ih =>
    simp only [no_forward_dep, Bool.and_eq_true] at h
    exact ih h.2
  | cons₂ a hsub ih =>
    simp only [no_forward_dep, Bool.and_eq_true, List.all_eq_true] at h ⊢
    refine ⟨fun d hd => ?_, ih h.2⟩
    have h1 := h.1 d hd
    refine ⟨h1.1, ?_⟩
    have h2 := h1.2
    rw [Bool.not_eq_true'] at h2 ⊢
    exact contains_false_of_subset (hsub.map Task.id).subset d h2

theorem remove_first_sublist [DecidableEq α] (l : List α) (a : α) :
    (remove_first l a).Sublist l := by
  induction l with
  | nil => simp [remove_first]
  | cons x xs ih =>
    by_cases h : x = a
    · simp only [remove_first, if_pos h]
      exact List.Sublist.cons x (List.Sublist.refl xs)
    · simp only [remove_first, if_neg h]
      exact List.Sublist.cons₂ x ih

theorem level_pass_rem_sublist (snap remaining : List Task) :
    (level_pass snap remaining).2.Sublist remaining := by
  induction snap generalizing remaining with
  | nil => simp [level_pass]
  | cons t rest ih =>
    by_cases h : t.dependencies.all (fun dep => !((remaining.map Task.id).contains dep))
    · simp only [level_pass, if_pos h]
      exact (ih (remove_first remaining t)).trans (remove_first_sublist remaining t)
    · simp only [level_pass, if_neg h]
      exact ih remaining

theorem level_pass_extracts_head (R : List Task) (hnf : no_forward_dep R = true)
    (hne : R ≠ []) : (level_pass R R).1 ≠ [] := by
  cases R with
  | nil => exact absurd rfl hne
  | cons t rest =>
    have hcond :
        t.dependencies.all (fun dep => !(((t :: rest).map Task.id).contains dep)) = true := by
      simp only [no_forward_dep, Bool.and_eq_true, List.all_eq_true] at hnf
      rw [List.all_eq_true]
      intro d hd
      have h1 := hnf.1 d hd
      rw [Bool.not_eq_true', List.map_cons, List.contains_cons, Bool.or_eq_false_iff]
      constructor
      · exact beq_eq_false_iff_ne.mpr (bne_iff_ne.mp h1.1)
      · have h2 := h1.2
        rw [Bool.not_eq_true'] at h2
        exact h2
    simp only [level_pass, if_pos hcond]
    exact List.cons_ne_nil t _

theorem levels_degenerate_false_of_nfd :
    ∀ (n : Nat) (R : List Task), R.length ≤ n → no_forward_dep R = true →
      levels_degenerate R = false := by
  intro n
  induction n with
  | zero =>
    intro R hlen _
    have hR : R = [] := List.length_eq_zero.mp (Nat.le_zero.mp hlen)
    subst hR
    unfold levels_degenerate
    simp
  | succ m ih =>
    intro R hlen hnf
    by_cases hR : R = []
    · subst hR
      unfold levels_degenerate
      simp
    · have hext := level_pass_extracts_head R hnf hR
      unfold levels_degenerate
      rw [if_neg (by simpa [List.isEmpty_iff] using hR),
        dif_neg (by simpa [List.isEmpty_iff] using hext)]
      refine ih _ ?_ (no_forward_dep_sublist (level_pass_rem_sublist R R) hnf)
      have hlt := level_pass_extract_length_lt R R (fun x => le_refl _) hext
      omega

theorem levels_degenerate_false (l : List Task) (h : no_forward_dep l = true) :
    levels_degenerate l = false :=
  levels_degenerate_false_of_nfd l.length l (le_refl _) h

theorem decompose_research_deps (base : Nat) (t : Task) :
    deps_resolved_earlier [] (decompose_research_task base t) = true ∧
    no_forward_dep (decompose_research_task base t) = true := by
  constructor <;>
    simp [decompose_research_task, deps_resolved_earlier, no_forward_dep]

theorem decompose_development_deps (base : Nat) (t : Task) :
    deps_resolved_earlier [] (decompose_development_task base t) = true ∧
    no_forward_dep (decompose_development_task base t) = true := by
  constructor <;>
    simp [decompose_development_task, deps_resolved_earlier, no_forward_dep]

theorem decompose_scraping_deps (base : Nat) (t : Task) :
    deps_resolved_earlier [] (decompose_scraping_task base t) = true ∧
    no_forward_dep (decompose_scraping_task base t) = true := by
  constructor <;>
    simp [decompose_scraping_task, deps_resolved_earlier, no_forward_dep]

theorem decompose_content_deps (base : Nat) (t : Task) :
    deps_resolved_earlier [] (decompose_content_task base t) = true ∧
    no_forward_dep (decompose_content_task base t) = true := by
  constructor <;>
    simp [decompose_content_task, deps_resolved_earlier, no_forward_dep]

theorem decompose_generic_deps (base : Nat) (t : Task) :
    deps_resolved_earlier [] (decompose_generic_task base t) = true ∧
    no_forward_dep (decompose_generic_task base t) = true := by
  constructor <;>
    simp [decompose_generic_task, deps_resolved_earlier, no_forward_dep]

/-- C10: every decomposition returns at most max_subtasks sub-tasks, every
dependency id of a returned sub-task is the id of a strictly earlier sub-task
of the returned list (each template is a forward chain and truncation keeps a
prefix), so the returned graph is acyclic and leveling it never takes the
degenerate catch-all branch. -/
theorem decompose_task_spec (base : Nat) (t : Task) (max_subtasks : Nat) :
    (decompose_task base t max_subtasks).length ≤ max_subtasks ∧
    deps_resolved_earlier [] (decompose_task base t max_subtasks) = true ∧
    levels_degenerate (decompose_task base t max_subtasks) = false := by
  have main : ∀ L : List Task, deps_resolved_earlier [] L = true →
      no_forward_dep L = true →
      (L.take max_subtasks).length ≤ max_subtasks ∧
      deps_resolved_earlier [] (L.take max_subtasks) = true ∧
      levels_degenerate (L.take max_subtasks) = false := by
    intro L h1 h2
    exact ⟨List.length_take_le _ _, deps_resolved_earlier_take L [] max_subtasks h1,
      levels_degenerate_false _ (no_forward_dep_take L max_subtasks h2)⟩
  unfold decompose_task
  dsimp only
  split
  · exact main _ (decompose_research_deps base t).1 (decompose_research_deps base t).2
  · split
    · exact main _ (decompose_development_deps base t).1 (decompose_development_deps base t).2
    · split
      · exact main _ (decompose_scraping_deps base t).1 (decompose_scraping_deps base t).2
      · split
        · exact main _ (decompose_content_deps base t).1 (decompose_content_deps base t).2
        · exact main _ (decompose_generic_deps base t).1 (decompose_generic_deps base t).2

theorem level_loop_nil : level_loop [] = [] := by
  unfold level_loop
  simp

theorem level_loop_catch_all (tasks : List Task) (h1 : tasks ≠ [])
    (h2 : (level_pass tasks tasks).1 = []) : level_loop tasks = [tasks] := by
  unfold level_loop
  rw [if_neg (by simpa [List.isEmpty_iff] using h1),
    dif_pos (by simpa [List.isEmpty_iff] using h2)]

theorem level_loop_length_le_of :
    ∀ (n : Nat) (R : List Task), R.length ≤ n → (level_loop R).length ≤ R.length := by
  intro n
  induction n with
  | zero =>
    intro R hlen
    have hR : R = [] := List.length_eq_zero.mp (Nat.le_zero.mp hlen)
    subst hR
    simp [level_loop_nil]
  | succ m ih =>
    intro R hlen
    by_cases hR : R = []
    · subst hR
      simp [level_loop_nil]
    · have hpos : 0 < R.length := List.length_pos.mpr hR
      by_cases hE : (level_pass R R).1 = []
      · rw [level_loop_catch_all R hR hE]
        simpa using hpos
      · unfold level_loop
        rw [if_neg (by simpa [List.isEmpty_iff] using hR),
          dif_neg (by simpa [List.isEmpty_iff] using hE)]
        have hlt := level_pass_extract_length_lt R R (fun x => le_refl _) hE
        have := ih (level_pass R R).2 (by omega)
        simp only [List.length_cons]
        omega

/-- C7 (amended): leveling always terminates within as many iterations as
there are tasks; an iteration that extracts nothing dumps every remaining task
into one final catch-all phase; but no degenerate flag exists — the returned
plan carries exactly the keys total_tasks, phases, parallel_tasks and
critical_path, none of which is a DegenerateWorkflow marker. -/
theorem leveling_terminates_catch_all :
    (∀ tasks : List Task, (level_loop tasks).length ≤ tasks.length) ∧
    (∀ tasks : List Task, tasks ≠ [] → (level_pass tasks tasks).1 = [] →
      level_loop tasks = [tasks] ∧
      (generate_execution_plan tasks).phases =
        [{ phase := 1, tasks := tasks.map Task.description,
           can_run_parallel := decide (tasks.length > 1) }]) ∧
    ("DegenerateWorkflow" ∉ execution_plan_keys) := by
  refine ⟨?_, ?_, by decide⟩
  · intro tasks
    exact level_loop_length_le_of tasks.length tasks (le_refl _)
  · intro tasks h1 h2
    have hcatch := level_loop_catch_all tasks h1 h2
    refine ⟨hcatch, ?_⟩
    simp [generate_execution_plan, hcatch]

/-- C7 counterexample: on the concrete two-cycle the leveling terminates with
one catch-all phase, yet the plan the code returns is the plain four-field
record — contrary to the claim it carries no DegenerateWorkflow flag. -/
theorem degenerate_flag_missing_on_cycle :
    cyc_a.dependencies = [cyc_b.id] ∧ cyc_b.dependencies = [cyc_a.id] ∧
    levels_degenerate [cyc_a, cyc_b] = true ∧
    generate_execution_plan [cyc_a, cyc_b] =
      { total_tasks := 2,
        phases := [{ phase := 1, tasks := ["loop left", "loop right"],
                     can_run_parallel := true }],
        parallel_tasks := [], critical_path := [] } ∧
    ("DegenerateWorkflow" ∈ execution_plan_keys → False) := by
  have h2 : (level_pass [cyc_a, cyc_b] [cyc_a, cyc_b]).1 = [] := by decide
  have h1 : ([cyc_a, cyc_b] : List Task) ≠ [] := by simp
  have hcatch := level_loop_catch_all [cyc_a, cyc_b] h1 h2
  refine ⟨by decide, by decide, ?_, ?_, by decide⟩
  · unfold levels_degenerate
    rw [if_neg (by simp), dif_pos (by simpa [List.isEmpty_iff] using h2)]
  · rw [show generate_execution_plan [cyc_a, cyc_b] =
        { total_tasks := 2,
          phases := [{ phase := 1, tasks := [cyc_a.description, cyc_b.description],
                       can_run_parallel := decide ((2 : Nat) > 1) }],
          parallel_tasks := [], critical_path := [] } by
      simp [generate_execution_plan, hcatch]]
    decide

/-- C6 demonstration: on the chain pair listed in dependency order the scan
extracts both tasks in its first pass (the mid-scan removal of `chain_a` makes
`chain_b`'s dependency check pass in the same iteration), so the dependent
ends in the same phase as its dependency instead of a strictly later one. -/
theorem chain_collapses_into_one_phase :
    chain_b.dependencies = [chain_a.id] ∧
    level_loop [chain_a, chain_b] = [[chain_a, chain_b]] ∧
    (generate_execution_plan [chain_a, chain_b]).phases =
      [{ phase := 1, tasks := ["stage one", "stage two"],
         can_run_parallel := true }] := by
  have hpass : level_pass [chain_a, chain_b] [chain_a, chain_b] =
      ([chain_a, chain_b], []) := by decide
  have hloop : level_loop [chain_a, chain_b] = [[chain_a, chain_b]] := by
    unfold level_loop
    rw [if_neg (by simp [List.isEmpty_iff]),
      dif_neg (by rw [hpass]; simp), hpass]
    simp [level_loop_nil]
  refine ⟨by decide, hloop, ?_⟩
  simp only [generate_execution_plan, hloop]
  decide

/-- C1 demonstration: the dispatch loop assigns a dependent task to a suitable
idle agent without consulting the dependency's status — the task reaches
in_progress while its dependency is still pending, and equally when the
dependency has already failed (instead of the dependent being failed without
dispatch). -/
theorem dispatch_ignores_dependencies :
    main_task.dependencies = [dep_task_pending.id] ∧
    dep_task_pending.status = "pending" ∧
    ((process_task_queue_step pending_dep_state 50 0).2.map (fun p => p.2.status) =
      some "in_progress") ∧
    ((process_task_queue_step pending_dep_state 50 0).1.agents.map Agent.status =
      [AgentStatus.busy]) ∧
    dep_task_failed.status = "failed" ∧
    ((process_task_queue_step failed_dep_state 50 0).2.map (fun p => p.2.status) =
      some "in_progress") ∧
    ((process_task_queue_step failed_dep_state 50 0).2.map (fun p => p.2.status) ≠
      some "failed") := by
  decide

/-- C2 demonstration: when an in-flight execution finishes, the coordinator
does move the task from the active to the completed records, but the executing
agent is left with status completed (success) or error (failure) — no code
path returns it to idle, so it is never again eligible for matching. -/
theorem agent_not_idle_after_completion :
    (execute_agent_task in_flight_state busy_agent dispatched_task
        (ExecOutcome.success "done") 1).active_tasks = [] ∧
    ((execute_agent_task in_flight_state busy_agent dispatched_task
        (ExecOutcome.success "done") 1).completed_tasks.map Prod.fst = [3]) ∧
    ((execute_agent_task in_flight_state busy_agent dispatched_task
        (ExecOutcome.success "done") 1).agents.map Agent.status =
      [AgentStatus.completed]) ∧
    ((execute_agent_task in_flight_state busy_agent dispatched_task
        (ExecOutcome.failure "boom") 1).agents.map Agent.status =
      [AgentStatus.error]) ∧
    AgentStatus.completed ≠ AgentStatus.idle ∧
    AgentStatus.error ≠ AgentStatus.idle := by
  decide

end Swarm
